import Mathlib

/-!
Verification of the `DynamoNotes` storage adapter of `application.py`
(a notes CRUD application backed by a DynamoDB table).

The adapter is embedded shallowly:
  * DynamoDB items are association lists `Dict` from attribute names to
    string values, with Python-dict insert/lookup semantics;
  * the remote table is a `TableState` (a list of items plus a `failing`
    flag: when `failing = true` every remote call raises a client error,
    which models an arbitrary transport failure and lets us state that a
    local check fires before any remote call);
  * the DynamoDB primitives `put_item`, `get_item`, `update_item`
    (with `ReturnValues="ALL_NEW"`), `delete_item` and `scan` are modelled
    with their documented semantics: `put_item` is a full-item upsert keyed
    by the table's key schema, `update_item` on an absent key creates an
    item holding just the key attributes, `delete_item` of an absent key
    succeeds;
  * Python exceptions become the `Err` inductive, one constructor per
    exception class actually raised by the adapter (`StorageError`,
    `ValueError`);
  * the clock (`now_iso`) and the UUID generator are passed in as explicit
    `ts`/`gen` string arguments;
  * Python truthiness of optional strings (`if user_id:`, `item_id or ...`)
    is modelled by `strTruthy` / `pyOr`.
-/

/-- Python `x or default` on an optional string: `None` and `""` are falsy. -/
def pyOr (o : Option String) (dflt : String) : String :=
  match o with
  | some s => if s = "" then dflt else s
  | none => dflt

/-- Python truthiness of an `Optional[str]`: `None` and `""` are falsy. -/
def strTruthy (o : Option String) : Bool :=
  match o with
  | some s => decide (s ≠ "")
  | none => false

/-- A single-quote character, used in the adapter's error messages. -/
def squote : String := String.mk [Char.ofNat 39]

/-- A DynamoDB item / Python dict: attribute name to string value. -/
abbrev Dict := List (String × String)

/-- Python dict lookup `d.get(k)`. -/
def dictGet (d : Dict) (k : String) : Option String :=
  match d with
  | [] => none
  | (k0, v0) :: rest => if k0 = k then some v0 else dictGet rest k

/-- Python dict assignment `d[k] = v`: replaces in place, else appends. -/
def dictInsert (d : Dict) (k v : String) : Dict :=
  match d with
  | [] => [(k, v)]
  | (k0, v0) :: rest => if k0 = k then (k0, v) :: rest else (k0, v0) :: dictInsert rest k v

/-- Exceptions raised by the adapter, one constructor per Python class. -/
inductive Err where
  | storageError (msg : String)
  | valueError (msg : String)
deriving DecidableEq, Repr

/-- Returns `true` iff an `Except` result is a success. -/
def exceptOk {α : Type} (r : Except Err α) : Bool :=
  match r with
  | .ok _ => true
  | .error _ => false

/-- The key-schema state of a `DynamoNotes` instance
(`self.key_name`, `self.sort_key_name`). -/
structure DynamoNotes where
  key_name : String
  sort_key_name : Option String
deriving DecidableEq, Repr

/-- The remote table: its items, and a transport-failure stub flag. -/
structure TableState where
  items : List Dict
  failing : Bool
deriving DecidableEq, Repr

/-- The primary key of a stored item under the instance's key schema:
its partition-key attribute and, when the schema has a (truthy) sort key,
its sort-key attribute. -/
def keyOfItem (self : DynamoNotes) (it : Dict) : Option String × Option String :=
  (dictGet it self.key_name,
   if strTruthy self.sort_key_name then dictGet it (self.sort_key_name.getD "") else none)

/-- Whether an item matches an explicit `Key=` dict (every key attribute equal). -/
def keyMatch (key : Dict) (it : Dict) : Bool :=
  key.all (fun kv => decide (dictGet it kv.1 = some kv.2))

/-- First stored item matching an explicit key dict. -/
def findByKey (key : Dict) (items : List Dict) : Option Dict :=
  items.find? (fun it => keyMatch key it)

/-- The item dict literal built by `create` (before the optional sort-key
attribute is added): `{key_name: item_id, "title": ..., "content": ...,
"created_at": ts, "updated_at": ts}`. -/
def buildItem (self : DynamoNotes) (iid title content ts : String) : Dict :=
  dictInsert (dictInsert (dictInsert (dictInsert (dictInsert [] self.key_name iid)
    "title" title) "content" content) "created_at" ts) "updated_at" ts

/-- Model of `table.put_item(Item=item)`: full-item upsert, replacing any item with
the same primary key. -/
def put_item (self : DynamoNotes) (st : TableState) (item : Dict) :
    Except String TableState :=
  if st.failing then .error "ClientError" else
  .ok { st with items :=
    item :: st.items.filter (fun j => !(decide (keyOfItem self j = keyOfItem self item))) }

/-- Model of `table.get_item(Key=key)`: returns `resp.get("Item")`. -/
def get_item (st : TableState) (key : Dict) : Except String (Option Dict) :=
  if st.failing then .error "ClientError" else
  .ok (findByKey key st.items)

/-- Apply `SET` assignments left to right (Python dict updates). -/
def applyAssigns (d : Dict) (assigns : List (String × String)) : Dict :=
  assigns.foldl (fun acc kv => dictInsert acc kv.1 kv.2) d

/-- Model of `table.update_item(Key=key, UpdateExpression="SET ...", ReturnValues="ALL_NEW")`:
applies the assignments to the stored item (or, on an absent key, to a fresh
item holding just the key attributes) and returns the resulting item. -/
def update_item (st : TableState) (key : Dict) (assigns : List (String × String)) :
    Except String (Dict × TableState) :=
  if st.failing then .error "ClientError" else
  let updated := applyAssigns ((findByKey key st.items).getD key) assigns
  .ok (updated, { st with items :=
    updated :: st.items.filter (fun it => !(keyMatch key it)) })

/-- Model of `table.delete_item(Key=key)`: removes the matching item; succeeds when absent. -/
def delete_item (st : TableState) (key : Dict) : Except String TableState :=
  if st.failing then .error "ClientError" else
  .ok { st with items := st.items.filter (fun it => !(keyMatch key it)) }

/-- Model of `table.scan()`, optionally with `FilterExpression=Attr(a).eq(v)`. -/
def scanTable (st : TableState) (flt : Option (String × String)) :
    Except String (List Dict) :=
  if st.failing then .error "ClientError" else
  .ok (match flt with
       | none => st.items
       | some av => st.items.filter (fun it => decide (dictGet it av.1 = some av.2)))

/-- One entry of a table's key schema as seen by discovery:
`entry.get("KeyType")` and `entry.get("AttributeName")`. -/
structure KeyEntry where
  keyType : Option String
  attributeName : Option String
deriving DecidableEq, Repr

/-- One step of iterating the discovered key schema: a (dict) entry, or a
malformed element on which `entry.get` raises. -/
inductive DiscEvent where
  | entry (e : KeyEntry)
  | malformed
deriving DecidableEq, Repr

/-- Observable behaviour of schema discovery (`table.key_schema` /
`describe_table`): it raises outright, or yields an optional list of
schema elements. -/
inductive Discovery where
  | raises
  | returns (ks : Option (List DiscEvent))
deriving DecidableEq, Repr

/-- The loop body of `__init__`'s discovery:
`HASH` sets `key_name` (defaulting to the current one when the entry has no
`AttributeName`); `RANGE` sets `sort_key_name` only when the current
`sort_key_name` is falsy. -/
def applyEntry (st : DynamoNotes) (e : KeyEntry) : DynamoNotes :=
  if e.keyType = some "HASH" then
    { st with key_name := e.attributeName.getD st.key_name }
  else if e.keyType = some "RANGE" ∧ strTruthy st.sort_key_name = false then
    { st with sort_key_name := e.attributeName }
  else st

/-- Iterate the discovered schema; a malformed element raises inside the
`try`, so processing stops there (the exception is swallowed) and
assignments already made are kept. -/
def runSchema (st : DynamoNotes) (evs : List DiscEvent) : DynamoNotes :=
  match evs with
  | [] => st
  | DiscEvent.malformed :: _ => st
  | DiscEvent.entry e :: rest => runSchema (applyEntry st e) rest

namespace DynamoNotes

/-- Embedding of `DynamoNotes.__init__`: `self.key_name = key_name or "id"`,
`self.sort_key_name = sort_key_name`, then discovery inside `try/except`. -/
def init (key_name sort_key_name : Option String) (disc : Discovery) : DynamoNotes :=
  let base : DynamoNotes := { key_name := pyOr key_name "id", sort_key_name := sort_key_name }
  match disc with
  | .raises => base
  | .returns none => base
  | .returns (some evs) => runSchema base evs

/-- The `Key=` dict the adapter builds for `get`/`update`/`delete`. -/
def mkKey (self : DynamoNotes) (item_id : String) (user_id : Option String) : Dict :=
  if strTruthy self.sort_key_name then
    dictInsert (dictInsert [] self.key_name item_id) (self.sort_key_name.getD "")
      (user_id.getD "")
  else
    dictInsert [] self.key_name item_id

/-- Embedding of `DynamoNotes.create`: builds the item (generated id when `item_id` is
falsy, one timestamp for both `created_at` and `updated_at`), requires a
truthy `user_id` when the table has a sort key, and `put_item`s it. -/
def create (self : DynamoNotes) (gen ts : String) (title content : String)
    (user_id item_id : Option String) (st : TableState) :
    Except Err (Dict × TableState) :=
  let iid := pyOr item_id gen
  let item0 : Dict := buildItem self iid title content ts
  if strTruthy self.sort_key_name then
    if strTruthy user_id then
      let item := dictInsert item0 (self.sort_key_name.getD "") (user_id.getD "")
      match put_item self st item with
      | .error e => .error (.storageError e)
      | .ok st2 => .ok (item, st2)
    else
      .error (.storageError ("Table requires sort key " ++ squote ++ self.sort_key_name.getD ""
        ++ squote ++ "; provide user_id"))
  else
    match put_item self st item0 with
    | .error e => .error (.storageError e)
    | .ok st2 => .ok (item0, st2)

/-- Embedding of `DynamoNotes.get`: requires `user_id is not None` when the table has a
sort key, then `get_item` by the full key. -/
def get (self : DynamoNotes) (item_id : String) (user_id : Option String)
    (st : TableState) : Except Err (Option Dict) :=
  if strTruthy self.sort_key_name then
    if user_id = none then
      .error (.storageError ("Table has sort key " ++ squote ++ self.sort_key_name.getD ""
        ++ squote ++ "; provide --user-id to identify the item"))
    else
      match get_item st (self.mkKey item_id user_id) with
      | .error e => .error (.storageError e)
      | .ok r => .ok r
  else
    match get_item st (self.mkKey item_id user_id) with
    | .error e => .error (.storageError e)
    | .ok r => .ok r

/-- Embedding of `DynamoNotes.list`: scans with a sort-key filter only when `user_id`
and `sort_key_name` are both truthy, else scans everything. -/
def list (self : DynamoNotes) (user_id : Option String) (st : TableState) :
    Except Err (List Dict) :=
  if strTruthy user_id = true ∧ strTruthy self.sort_key_name = true then
    match scanTable st (some (self.sort_key_name.getD "", user_id.getD "")) with
    | .error e => .error (.storageError e)
    | .ok items => .ok items
  else
    match scanTable st none with
    | .error e => .error (.storageError e)
    | .ok items => .ok items

/-- Embedding of `DynamoNotes.update`: rejects a call supplying neither field, builds the
`SET` assignments (always `updated_at`, then `title`/`content` when
supplied), requires `user_id is not None` on a sort-key table, and calls
`update_item` with `ALL_NEW`. -/
def update (self : DynamoNotes) (ts : String) (item_id : String)
    (title content : Option String) (user_id : Option String) (st : TableState) :
    Except Err (Dict × TableState) :=
  if title = none ∧ content = none then
    .error (.valueError "At least one of title or content must be provided for update")
  else
    let assigns : List (String × String) :=
      [("updated_at", ts)]
        ++ (match title with | some t => [("title", t)] | none => [])
        ++ (match content with | some c => [("content", c)] | none => [])
    if strTruthy self.sort_key_name then
      if user_id = none then
        .error (.storageError ("Table has sort key " ++ squote ++ self.sort_key_name.getD ""
          ++ squote ++ "; provide --user-id to update the item"))
      else
        match update_item st (self.mkKey item_id user_id) assigns with
        | .error e => .error (.storageError e)
        | .ok r => .ok r
    else
      match update_item st (self.mkKey item_id user_id) assigns with
      | .error e => .error (.storageError e)
      | .ok r => .ok r

/-- Embedding of `DynamoNotes.delete`: requires `user_id is not None` on a sort-key
table, then `delete_item` by the full key. -/
def delete (self : DynamoNotes) (item_id : String) (user_id : Option String)
    (st : TableState) : Except Err TableState :=
  if strTruthy self.sort_key_name then
    if user_id = none then
      .error (.storageError ("Table has sort key " ++ squote ++ self.sort_key_name.getD ""
        ++ squote ++ "; provide --user-id to delete the item"))
    else
      match delete_item st (self.mkKey item_id user_id) with
      | .error e => .error (.storageError e)
      | .ok st2 => .ok st2
  else
    match delete_item st (self.mkKey item_id user_id) with
    | .error e => .error (.storageError e)
    | .ok st2 => .ok st2

end DynamoNotes

/-! ## Dictionary lemmas -/

theorem dictGet_insert_self (d : Dict) (k v : String) :
    dictGet (dictInsert d k v) k = some v := by
  induction d with
  | nil => simp [dictInsert, dictGet]
  | cons hd tl ih =>
    obtain ⟨k0, v0⟩ := hd
    by_cases h : k0 = k
    · simp [dictInsert, dictGet, h]
    · simp [dictInsert, dictGet, h, ih]

theorem dictGet_insert_ne (d : Dict) (k v a : String) (h : k ≠ a) :
    dictGet (dictInsert d k v) a = dictGet d a := by
  induction d with
  | nil => simp [dictInsert, dictGet, h]
  | cons hd tl ih =>
    obtain ⟨k0, v0⟩ := hd
    by_cases h0 : k0 = k
    · subst h0
      simp [dictInsert, dictGet, h]
    · simp [dictInsert, dictGet, h0, ih]

theorem runSchema_entries_append_malformed (es : List KeyEntry) (rest : List DiscEvent)
    (st : DynamoNotes) :
    runSchema st (es.map DiscEvent.entry ++ DiscEvent.malformed :: rest) =
      runSchema st (es.map DiscEvent.entry) := by
  induction es generalizing st with
  | nil => simp [runSchema]
  | cons e es ih => simp [runSchema, ih]

/-! ## Shared concrete fixtures -/

/-- A representative sort-key table schema: partition key `id`, sort key `user`. -/
def sortStore : DynamoNotes := ⟨"id", some "user"⟩

/-- A stored item whose sort-key value is the empty string. -/
def emptySortItem : Dict :=
  [("id", "a"), ("user", ""), ("title", "T"), ("content", "C"),
   ("created_at", "x"), ("updated_at", "x")]

/-- A stored item with sort-key value `"bob"`. -/
def bobItem : Dict :=
  [("id", "b"), ("user", "bob"), ("title", "U"), ("content", "D"),
   ("created_at", "y"), ("updated_at", "y")]

/-- A healthy table holding `emptySortItem` and `bobItem`. -/
def twoItemState : TableState := ⟨[emptySortItem, bobItem], false⟩

/-! ## Claim theorems -/

/-- C2: `update` called with neither `title` nor `content` fails with the
locally raised invalid-argument kind (`ValueError` in the code, the spec's
`InvalidArgument`), for every schema, input and table state — in particular
also when every remote call would fail, so no remote call is performed. -/
theorem update_no_fields_invalid_argument (self : DynamoNotes) (ts item_id : String)
    (user_id : Option String) (st : TableState) :
    self.update ts item_id none none user_id st =
      .error (.valueError "At least one of title or content must be provided for update") := by
  simp [DynamoNotes.update]

/-- C4: evaluation of the constructor at the failing input. With the
explicit partition key name `"mykey"` supplied and discovery reporting a
hash key named `"pk"`, the store ends up with `key_name = "pk"`: the
discovered name overrides the explicit one (the claim, and the code's own
comment "prefer provided key names", say the explicit `"mykey"` is used;
the `HASH` branch lacks the guard the `RANGE` branch has). -/
theorem init_hash_overrides_explicit_key_name :
    DynamoNotes.init (some "mykey") none
        (.returns (some [.entry ⟨some "HASH", some "pk"⟩])) =
      { key_name := "pk", sort_key_name := none } ∧ ("pk" : String) ≠ "mykey" :=
  ⟨rfl, by decide⟩

/-- C9 counterexample: with explicit partition key `"mykey"` supplied and a
discovery result that is malformed after one valid hash entry, the
constructor swallows the failure but does NOT fall back to the explicit
name: it keeps the partially discovered `key_name = "pk"`. -/
theorem init_malformed_discovery_keeps_partial_counterexample :
    DynamoNotes.init (some "mykey") none
        (.returns (some [.entry ⟨some "HASH", some "pk"⟩, .malformed])) =
      { key_name := "pk", sort_key_name := none } ∧ ("pk" : String) ≠ "mykey" :=
  ⟨rfl, by decide⟩

/-- C9 (amended): constructor discovery never propagates a failure — `init`
is total and, whenever discovery raises before yielding any schema entry
(outright raise, no schema, or a malformed first element), the store falls
back to the explicit key names (default partition key `"id"`, no sort key).
A failure part-way through the schema keeps the assignments already made
from the earlier entries. -/
theorem init_discovery_failure_fallback (key_name sort_key_name : Option String)
    (es : List KeyEntry) (rest : List DiscEvent) :
    DynamoNotes.init key_name sort_key_name .raises =
      { key_name := pyOr key_name "id", sort_key_name := sort_key_name } ∧
    DynamoNotes.init key_name sort_key_name (.returns none) =
      { key_name := pyOr key_name "id", sort_key_name := sort_key_name } ∧
    DynamoNotes.init key_name sort_key_name (.returns (some (.malformed :: rest))) =
      { key_name := pyOr key_name "id", sort_key_name := sort_key_name } ∧
    DynamoNotes.init key_name sort_key_name
        (.returns (some (es.map DiscEvent.entry ++ DiscEvent.malformed :: rest))) =
      DynamoNotes.init key_name sort_key_name (.returns (some (es.map DiscEvent.entry))) := by
  refine ⟨rfl, rfl, rfl, ?_⟩
  simp [DynamoNotes.init, runSchema_entries_append_malformed]

/-- C10: on a sort-key table (`sortStore`), the empty string as sort-key
value is handled inconsistently: `get`/`update`/`delete` accept it (only
`None` triggers the missing-sort-key failure) and address the item whose
sort key is the empty string; `create` rejects it as missing; `list`
treats an empty-string filter as absent and returns every item. -/
theorem empty_sort_value_inconsistent :
    sortStore.get "a" (some "") twoItemState = .ok (some emptySortItem) ∧
    sortStore.update "ts2" "a" (some "T2") none (some "") twoItemState =
      .ok ([("id", "a"), ("user", ""), ("title", "T2"), ("content", "C"),
            ("created_at", "x"), ("updated_at", "ts2")],
           ⟨[[("id", "a"), ("user", ""), ("title", "T2"), ("content", "C"),
              ("created_at", "x"), ("updated_at", "ts2")], bobItem], false⟩) ∧
    sortStore.delete "a" (some "") twoItemState = .ok ⟨[bobItem], false⟩ ∧
    sortStore.create "g" "ts" "t" "c" (some "") none twoItemState =
      .error (.storageError ("Table requires sort key " ++ squote ++ "user" ++ squote
        ++ "; provide user_id")) ∧
    sortStore.list (some "") twoItemState = .ok [emptySortItem, bobItem] :=
  ⟨rfl, rfl, rfl, rfl, rfl⟩

/-- C1 counterexample: on a sort-key table, `create` without a sort-key
value fails with the `StorageError` kind (the single exception class the
adapter uses for storage failures) — not with a distinct `MissingSortKey`
kind; no such class exists in the code. -/
theorem missing_sort_key_is_storage_error :
    sortStore.create "g" "ts" "t" "c" none none ⟨[], false⟩ =
      .error (.storageError ("Table requires sort key " ++ squote ++ "user" ++ squote
        ++ "; provide user_id")) := rfl

/-- C1 (amended): on a sort-key table each of the four operations fails
when the caller supplies no sort-key value, raising the `StorageError`
kind with a message naming the missing sort key (the failure is signalled
by the same `StorageError` class as transport failures, not a distinct
`MissingSortKey` kind). The failure result is the same for every table
state, including one on which every remote call fails — so it is raised
before any remote call. Each operation succeeds when a sort-key value is
supplied (for `create`, a non-empty one) and the backend is healthy. -/
theorem sort_key_required_storage_error (kn skn : String) (hskn : skn ≠ "")
    (gen ts title content t iid : String) (u : String) (hu : u ≠ "")
    (bad : Option String) (hbad : strTruthy bad = false)
    (item_id : Option String)
    (stAny : TableState) (st : TableState) (hf : st.failing = false) :
    (DynamoNotes.create ⟨kn, some skn⟩ gen ts title content bad item_id stAny =
      .error (.storageError ("Table requires sort key " ++ squote ++ skn ++ squote
        ++ "; provide user_id"))) ∧
    (DynamoNotes.get ⟨kn, some skn⟩ iid none stAny =
      .error (.storageError ("Table has sort key " ++ squote ++ skn ++ squote
        ++ "; provide --user-id to identify the item"))) ∧
    (DynamoNotes.update ⟨kn, some skn⟩ ts iid (some t) none none stAny =
      .error (.storageError ("Table has sort key " ++ squote ++ skn ++ squote
        ++ "; provide --user-id to update the item"))) ∧
    (DynamoNotes.delete ⟨kn, some skn⟩ iid none stAny =
      .error (.storageError ("Table has sort key " ++ squote ++ skn ++ squote
        ++ "; provide --user-id to delete the item"))) ∧
    exceptOk (DynamoNotes.create ⟨kn, some skn⟩ gen ts title content (some u) item_id st) = true ∧
    exceptOk (DynamoNotes.get ⟨kn, some skn⟩ iid (some u) st) = true ∧
    exceptOk (DynamoNotes.update ⟨kn, some skn⟩ ts iid (some t) none (some u) st) = true ∧
    exceptOk (DynamoNotes.delete ⟨kn, some skn⟩ iid (some u) st) = true := by
  have hs : strTruthy (some skn) = true := by simp [strTruthy, hskn]
  have hus : strTruthy (some u) = true := by simp [strTruthy, hu]
  refine ⟨?_, ?_, ?_, ?_, ?_, ?_, ?_, ?_⟩
  · simp [DynamoNotes.create, hs, hbad]
  · simp [DynamoNotes.get, hs]
  · simp [DynamoNotes.update, hs]
  · simp [DynamoNotes.delete, hs]
  · simp [DynamoNotes.create, hs, hus, put_item, hf, exceptOk]
  · simp [DynamoNotes.get, hs, get_item, hf, exceptOk]
  · simp [DynamoNotes.update, hs, update_item, hf, exceptOk]
  · simp [DynamoNotes.delete, hs, delete_item, hf, exceptOk]

/-- Witness for C1 (amended) at concrete inputs. -/
theorem sort_key_required_storage_error_witness :
    exceptOk (DynamoNotes.create ⟨"id", some "user"⟩ "g" "ts" "T" "C" (some "bob") none
      ⟨[], false⟩) = true :=
  (sort_key_required_storage_error "id" "user" (by decide) "g" "ts" "T" "C" "T2" "i"
    "bob" (by decide) none (by decide) none ⟨[], true⟩ ⟨[], false⟩ rfl).2.2.2.2.1

/-- C3 counterexample: `create` with empty `title` and empty `content`
succeeds (the adapter performs no non-emptiness validation), refuting
"create fails when title or content is the empty string". -/
theorem create_empty_fields_succeeds :
    DynamoNotes.create ⟨"id", none⟩ "g" "ts" "" "" none none ⟨[], false⟩ =
      .ok ([("id", "g"), ("title", ""), ("content", ""),
            ("created_at", "ts"), ("updated_at", "ts")],
           ⟨[[("id", "g"), ("title", ""), ("content", ""),
              ("created_at", "ts"), ("updated_at", "ts")]], false⟩) := rfl

/-- C3 (amended): the adapter's `create` validates neither `title` nor
`content`: it succeeds for every pair of strings, empty included, whenever
the backend is healthy and the sort-key requirement is met (non-emptiness
of `title`/`content` is enforced only by the out-of-scope web front end). -/
theorem create_no_emptiness_validation (self : DynamoNotes) (gen ts title content : String)
    (item_id : Option String) (u : String) (hu : u ≠ "") (st : TableState)
    (hf : st.failing = false) :
    (strTruthy self.sort_key_name = false →
      exceptOk (self.create gen ts title content none item_id st) = true) ∧
    (strTruthy self.sort_key_name = true →
      exceptOk (self.create gen ts title content (some u) item_id st) = true) := by
  have hus : strTruthy (some u) = true := by simp [strTruthy, hu]
  constructor
  · intro hs
    simp [DynamoNotes.create, hs, put_item, hf, exceptOk]
  · intro hs
    simp [DynamoNotes.create, hs, hus, put_item, hf, exceptOk]

/-- Witness for C3 (amended) at concrete inputs: empty title and content. -/
theorem create_no_emptiness_validation_witness :
    exceptOk (DynamoNotes.create ⟨"id", none⟩ "g" "ts" "" "" none none ⟨[], false⟩) = true :=
  (create_no_emptiness_validation ⟨"id", none⟩ "g" "ts" "" "" none "bob" (by decide)
    ⟨[], false⟩ rfl).1 rfl

/-- C8: `delete` of a key with no matching stored item succeeds, leaves the
table state exactly as it was, and a subsequent `get` on the same key
returns the absent result (`None`), on any healthy backend. -/
theorem delete_idempotent (self : DynamoNotes) (item_id : String) (user_id : Option String)
    (st : TableState) (hf : st.failing = false)
    (hu : strTruthy self.sort_key_name = true → user_id ≠ none)
    (habs : ∀ it ∈ st.items, keyMatch (self.mkKey item_id user_id) it = false) :
    self.delete item_id user_id st = .ok st ∧
    self.get item_id user_id st = .ok none := by
  obtain ⟨sitems, sfail⟩ := st
  dsimp only at hf habs
  subst hf
  have hfilter : sitems.filter (fun it => !(keyMatch (self.mkKey item_id user_id) it)) =
      sitems :=
    List.filter_eq_self.mpr (fun a ha => by simp [habs a ha])
  have hfind : findByKey (self.mkKey item_id user_id) sitems = none := by
    unfold findByKey
    exact List.find?_eq_none.mpr (fun x hx => by simp [habs x hx])
  by_cases hs : strTruthy self.sort_key_name = true
  · have hun : user_id ≠ none := hu hs
    constructor
    · simp [DynamoNotes.delete, hs, hun, delete_item, hfilter]
    · simp [DynamoNotes.get, hs, hun, get_item, hfind]
  · have hs' : strTruthy self.sort_key_name = false := by simpa using hs
    constructor
    · simp [DynamoNotes.delete, hs', delete_item, hfilter]
    · simp [DynamoNotes.get, hs', get_item, hfind]

/-- Witness for C8 at concrete inputs: key `("zz", "bob")` is absent from
`twoItemState`. -/
theorem delete_idempotent_witness :
    sortStore.delete "zz" (some "bob") twoItemState = .ok twoItemState ∧
    sortStore.get "zz" (some "bob") twoItemState = .ok none :=
  delete_idempotent sortStore "zz" (some "bob") twoItemState rfl (fun _ => by decide)
    (by decide)

/-- Reduction of a successful `update` call: with at least one field
supplied, the sort-key requirement met, a healthy backend and a stored
item matching the key, `update` returns the stored item with the `SET`
assignments applied, and stores it back in place of the old item. -/
theorem update_ok (self : DynamoNotes) (ts item_id : String)
    (title content user_id : Option String) (st : TableState) (it : Dict)
    (hne : ¬(title = none ∧ content = none))
    (hu : strTruthy self.sort_key_name = true → user_id ≠ none)
    (hf : st.failing = false)
    (hfind : findByKey (self.mkKey item_id user_id) st.items = some it) :
    self.update ts item_id title content user_id st =
      .ok (applyAssigns it ([("updated_at", ts)]
            ++ (match title with | some t => [("title", t)] | none => [])
            ++ (match content with | some c => [("content", c)] | none => [])),
        ⟨applyAssigns it ([("updated_at", ts)]
            ++ (match title with | some t => [("title", t)] | none => [])
            ++ (match content with | some c => [("content", c)] | none => []))
          :: st.items.filter (fun j => !(keyMatch (self.mkKey item_id user_id) j)),
         st.failing⟩) := by
  rcases title with _ | t <;> rcases content with _ | c
  · exact absurd ⟨rfl, rfl⟩ hne
  all_goals by_cases hs : strTruthy self.sort_key_name = true
  all_goals try have hun : user_id ≠ none := hu hs
  all_goals try have hs' : strTruthy self.sort_key_name = false := by simpa using hs
  all_goals simp_all [DynamoNotes.update, update_item, hf, hfind]

/-- C7: a successful `update` on an existing item modifies exactly the
supplied fields among `title`/`content` plus `updated_at`; every other
attribute of the stored item (in particular the partition key, the
sort-key attribute and `created_at`) keeps its prior value, and the call
returns the complete post-update item (which is exactly what is stored). -/
theorem update_modifies_only_supplied_fields (self : DynamoNotes) (ts item_id : String)
    (title content user_id : Option String) (st : TableState) (it : Dict)
    (hne : ¬(title = none ∧ content = none))
    (hu : strTruthy self.sort_key_name = true → user_id ≠ none)
    (hf : st.failing = false)
    (hfind : findByKey (self.mkKey item_id user_id) st.items = some it) :
    ∃ upd st2, self.update ts item_id title content user_id st = .ok (upd, st2) ∧
      dictGet upd "updated_at" = some ts ∧
      (∀ t, title = some t → dictGet upd "title" = some t) ∧
      (title = none → dictGet upd "title" = dictGet it "title") ∧
      (∀ c, content = some c → dictGet upd "content" = some c) ∧
      (content = none → dictGet upd "content" = dictGet it "content") ∧
      (∀ a, a ≠ "updated_at" → a ≠ "title" → a ≠ "content" → dictGet upd a = dictGet it a) ∧
      st2.items = upd :: st.items.filter (fun j => !(keyMatch (self.mkKey item_id user_id) j)) := by
  have hok := update_ok self ts item_id title content user_id st it hne hu hf hfind
  rcases title with _ | t <;> rcases content with _ | c
  · exact absurd ⟨rfl, rfl⟩ hne
  · -- title omitted, content supplied
    refine ⟨_, _, hok, ?_, ?_, ?_, ?_, ?_, ?_, rfl⟩
    · simp +decide [applyAssigns, dictGet_insert_self, dictGet_insert_ne]
    · intro t' h1; cases h1
    · intro h1
      simp +decide [applyAssigns, dictGet_insert_ne]
    · intro c' h1
      cases h1
      simp [applyAssigns, dictGet_insert_self]
    · intro h1; cases h1
    · intro a ha1 ha2 ha3
      simp only [applyAssigns, List.cons_append, List.nil_append, List.foldl_cons,
        List.foldl_nil]
      rw [dictGet_insert_ne _ _ _ _ (Ne.symm ha3), dictGet_insert_ne _ _ _ _ (Ne.symm ha1)]
  · -- title supplied, content omitted
    refine ⟨_, _, hok, ?_, ?_, ?_, ?_, ?_, ?_, rfl⟩
    · simp +decide [applyAssigns, dictGet_insert_self, dictGet_insert_ne]
    · intro t' h1
      cases h1
      simp +decide [applyAssigns, dictGet_insert_self, dictGet_insert_ne]
    · intro h1; cases h1
    · intro c' h1; cases h1
    · intro h1
      simp +decide [applyAssigns, dictGet_insert_ne]
    · intro a ha1 ha2 ha3
      simp only [applyAssigns, List.cons_append, List.nil_append, List.append_nil,
        List.foldl_cons, List.foldl_nil]
      rw [dictGet_insert_ne _ _ _ _ (Ne.symm ha2), dictGet_insert_ne _ _ _ _ (Ne.symm ha1)]
  · -- both supplied
    refine ⟨_, _, hok, ?_, ?_, ?_, ?_, ?_, ?_, rfl⟩
    · simp +decide [applyAssigns, dictGet_insert_self, dictGet_insert_ne]
    · intro t' h1
      cases h1
      simp +decide [applyAssigns, dictGet_insert_self, dictGet_insert_ne]
    · intro h1; cases h1
    · intro c' h1
      cases h1
      simp [applyAssigns, dictGet_insert_self]
    · intro h1; cases h1
    · intro a ha1 ha2 ha3
      simp only [applyAssigns, List.cons_append, List.nil_append, List.foldl_cons,
        List.foldl_nil]
      rw [dictGet_insert_ne _ _ _ _ (Ne.symm ha3), dictGet_insert_ne _ _ _ _ (Ne.symm ha2),
        dictGet_insert_ne _ _ _ _ (Ne.symm ha1)]

/-- Witness for C7 at concrete inputs: update `bobItem`'s title only. -/
theorem update_modifies_only_supplied_fields_witness :
    exceptOk (sortStore.update "ts2" "b" (some "T2") none (some "bob") twoItemState) = true := by
  obtain ⟨upd, st2, hok, -⟩ :=
    update_modifies_only_supplied_fields sortStore "ts2" "b" (some "T2") none (some "bob")
      twoItemState bobItem (by simp) (fun _ => by simp) rfl (by decide)
  simp [hok, exceptOk]

/-- C5: for any `(title, content)` (and, on a sort-key table, any supplied
non-empty sort-key value), `create` followed by `get` with the id returned
by `create` (and the same sort-key value) returns exactly the item that
`create` returned, whose `title`/`content` equal those passed to `create`
and whose `created_at`/`updated_at` are both the creation timestamp (hence
identical to those in the returned item). The key-schema attribute names
are assumed distinct from the note attributes and from each other. -/
theorem create_get_roundtrip (kn : String) (sk : Option String)
    (gen ts title content : String) (user_id item_id : Option String) (st : TableState)
    (hf : st.failing = false)
    (h1 : kn ≠ "title") (h2 : kn ≠ "content") (h3 : kn ≠ "created_at") (h4 : kn ≠ "updated_at")
    (hsk : ∀ skn, sk = some skn → skn ≠ "" →
      skn ≠ "title" ∧ skn ≠ "content" ∧ skn ≠ "created_at" ∧ skn ≠ "updated_at" ∧
      skn ≠ kn ∧ strTruthy user_id = true) :
    ∃ item st2,
      DynamoNotes.create ⟨kn, sk⟩ gen ts title content user_id item_id st = .ok (item, st2) ∧
      DynamoNotes.get ⟨kn, sk⟩ (pyOr item_id gen) user_id st2 = .ok (some item) ∧
      dictGet item kn = some (pyOr item_id gen) ∧
      dictGet item "title" = some title ∧
      dictGet item "content" = some content ∧
      dictGet item "created_at" = some ts ∧
      dictGet item "updated_at" = some ts := by
  obtain ⟨sitems, sfail⟩ := st
  dsimp only at hf
  subst hf
  by_cases hs : strTruthy sk = true
  · -- the table has a (truthy) sort key
    obtain ⟨skn, rfl⟩ : ∃ skn, sk = some skn := by
      cases sk with
      | none => simp [strTruthy] at hs
      | some s => exact ⟨s, rfl⟩
    have hne : skn ≠ "" := by simpa [strTruthy] using hs
    obtain ⟨e1, e2, e3, e4, e5, hut⟩ := hsk skn rfl hne
    obtain ⟨u, rfl⟩ : ∃ u, user_id = some u := by
      cases user_id with
      | none => simp [strTruthy] at hut
      | some v => exact ⟨v, rfl⟩
    refine ⟨dictInsert (buildItem ⟨kn, some skn⟩ (pyOr item_id gen) title content ts) skn u,
      ⟨dictInsert (buildItem ⟨kn, some skn⟩ (pyOr item_id gen) title content ts) skn u ::
        sitems.filter (fun j => !(decide (keyOfItem ⟨kn, some skn⟩ j =
          keyOfItem ⟨kn, some skn⟩ (dictInsert (buildItem ⟨kn, some skn⟩ (pyOr item_id gen)
            title content ts) skn u)))), false⟩, ?_, ?_, ?_, ?_, ?_, ?_, ?_⟩
    · simp [DynamoNotes.create, hs, hut, put_item]
    · have gkn : dictGet (dictInsert (buildItem ⟨kn, some skn⟩ (pyOr item_id gen) title
          content ts) skn u) kn = some (pyOr item_id gen) := by
        simp +decide [buildItem, dictGet_insert_self, dictGet_insert_ne,
          e5, Ne.symm h1, Ne.symm h2, Ne.symm h3, Ne.symm h4]
      have hfindI : ∀ l : List Dict,
          findByKey (DynamoNotes.mkKey ⟨kn, some skn⟩ (pyOr item_id gen) (some u))
            (dictInsert (buildItem ⟨kn, some skn⟩ (pyOr item_id gen) title content ts) skn u
              :: l) =
            some (dictInsert (buildItem ⟨kn, some skn⟩ (pyOr item_id gen) title content ts)
              skn u) := by
        intro l
        unfold findByKey
        apply List.find?_cons_of_pos
        simp [DynamoNotes.mkKey, hs, keyMatch, dictInsert, Ne.symm e5, gkn,
          dictGet_insert_self]
      simp [DynamoNotes.get, hs, get_item, hfindI]
    · simp +decide [buildItem, dictGet_insert_self, dictGet_insert_ne,
        e5, Ne.symm h1, Ne.symm h2, Ne.symm h3, Ne.symm h4]
    · simp +decide [buildItem, dictGet_insert_self, dictGet_insert_ne, e1]
    · simp +decide [buildItem, dictGet_insert_self, dictGet_insert_ne, e2]
    · simp +decide [buildItem, dictGet_insert_self, dictGet_insert_ne, e3]
    · simp [buildItem, dictGet_insert_self, dictGet_insert_ne, e4]
  · -- no (truthy) sort key
    have hs' : strTruthy sk = false := by simpa using hs
    refine ⟨buildItem ⟨kn, sk⟩ (pyOr item_id gen) title content ts,
      ⟨buildItem ⟨kn, sk⟩ (pyOr item_id gen) title content ts ::
        sitems.filter (fun j => !(decide (keyOfItem ⟨kn, sk⟩ j =
          keyOfItem ⟨kn, sk⟩ (buildItem ⟨kn, sk⟩ (pyOr item_id gen) title content ts)))),
       false⟩, ?_, ?_, ?_, ?_, ?_, ?_, ?_⟩
    · simp [DynamoNotes.create, hs', put_item]
    · have gkn : dictGet (buildItem ⟨kn, sk⟩ (pyOr item_id gen) title content ts) kn =
          some (pyOr item_id gen) := by
        simp +decide [buildItem, dictGet_insert_self, dictGet_insert_ne,
          Ne.symm h1, Ne.symm h2, Ne.symm h3, Ne.symm h4]
      have hfindI : ∀ l : List Dict,
          findByKey (DynamoNotes.mkKey ⟨kn, sk⟩ (pyOr item_id gen) user_id)
            (buildItem ⟨kn, sk⟩ (pyOr item_id gen) title content ts :: l) =
            some (buildItem ⟨kn, sk⟩ (pyOr item_id gen) title content ts) := by
        intro l
        unfold findByKey
        apply List.find?_cons_of_pos
        simp [DynamoNotes.mkKey, hs', keyMatch, dictInsert, gkn]
      simp [DynamoNotes.get, hs', get_item, hfindI]
    · simp +decide [buildItem, dictGet_insert_self, dictGet_insert_ne,
        Ne.symm h1, Ne.symm h2, Ne.symm h3, Ne.symm h4]
    · simp +decide [buildItem, dictGet_insert_self, dictGet_insert_ne]
    · simp +decide [buildItem, dictGet_insert_self, dictGet_insert_ne]
    · simp +decide [buildItem, dictGet_insert_self, dictGet_insert_ne]
    · simp [buildItem, dictGet_insert_self]

/-- Witness for C5 at concrete inputs. -/
theorem create_get_roundtrip_witness :
    exceptOk (DynamoNotes.create ⟨"id", some "user"⟩ "g" "ts" "T" "C" (some "bob") none
      ⟨[], false⟩) = true := by
  obtain ⟨item, st2, hc, -, -, -, -, -, -⟩ :=
    create_get_roundtrip "id" (some "user") "g" "ts" "T" "C" (some "bob") none ⟨[], false⟩
      rfl (by decide) (by decide) (by decide) (by decide)
      (fun skn h hne => by
        injection h with h9
        subst h9
        exact ⟨by decide, by decide, by decide, by decide, by decide, by decide⟩)
  simp [hc, exceptOk]

/-- Putting an item whose primary key equals that of the item put just
before removes the first item again: the stored tail is unchanged. -/
theorem filter_cons_self_key (S : DynamoNotes) (l : List Dict) (i1 i2 : Dict)
    (h12 : keyOfItem S i1 = keyOfItem S i2) :
    (i1 :: l.filter (fun j => !(decide (keyOfItem S j = keyOfItem S i1)))).filter
        (fun j => !(decide (keyOfItem S j = keyOfItem S i2))) =
      l.filter (fun j => !(decide (keyOfItem S j = keyOfItem S i1))) := by
  rw [← h12, List.filter_cons]
  simp [List.filter_filter]

/-- An item matching the `Key=` dict the adapter builds on a sort-key
schema has exactly that primary key. -/
theorem keyMatch_mkKey_eq (kn skn idv u : String) (hk : kn ≠ skn) (j : Dict)
    (hs : strTruthy (some skn) = true)
    (h : keyMatch (DynamoNotes.mkKey ⟨kn, some skn⟩ idv (some u)) j = true) :
    keyOfItem ⟨kn, some skn⟩ j = (some idv, some u) := by
  simp [DynamoNotes.mkKey, hs, dictInsert, hk, keyMatch] at h
  simp [keyOfItem, hs, h.1, h.2]

/-- An item matching the `Key=` dict the adapter builds on a schema
without a (truthy) sort key has exactly that primary key. -/
theorem keyMatch_mkKey_eq_nosort (kn : String) (sk : Option String) (idv : String)
    (user_id : Option String) (j : Dict) (hs' : strTruthy sk = false)
    (h : keyMatch (DynamoNotes.mkKey ⟨kn, sk⟩ idv user_id) j = true) :
    keyOfItem ⟨kn, sk⟩ j = (some idv, none) := by
  simp [DynamoNotes.mkKey, hs', dictInsert, keyMatch] at h
  simp [keyOfItem, hs', h]

/-- C6: `create` writes with unconditional overwrite semantics: calling
`create` twice with the same explicit id (and, on a sort-key table, the
same sort-key value) replaces rather than duplicates the item — a
subsequent `list` filtered to that key contains exactly one item bearing
the full key, with the second call's `title` and `content`. -/
theorem create_overwrites_no_duplicate (kn : String) (sk : Option String)
    (g1 g2 ts1 ts2 t1 c1 t2 c2 idv : String) (user_id : Option String) (st : TableState)
    (hf : st.failing = false) (hid : idv ≠ "")
    (h1 : kn ≠ "title") (h2 : kn ≠ "content") (h3 : kn ≠ "created_at") (h4 : kn ≠ "updated_at")
    (hsk : ∀ skn, sk = some skn → skn ≠ "" →
      skn ≠ "title" ∧ skn ≠ "content" ∧ skn ≠ "created_at" ∧ skn ≠ "updated_at" ∧
      skn ≠ kn ∧ strTruthy user_id = true) :
    ∃ i1 st1 i2 st2 items,
      DynamoNotes.create ⟨kn, sk⟩ g1 ts1 t1 c1 user_id (some idv) st = .ok (i1, st1) ∧
      DynamoNotes.create ⟨kn, sk⟩ g2 ts2 t2 c2 user_id (some idv) st1 = .ok (i2, st2) ∧
      DynamoNotes.list ⟨kn, sk⟩ user_id st2 = .ok items ∧
      items.filter (fun it => keyMatch (DynamoNotes.mkKey ⟨kn, sk⟩ idv user_id) it) = [i2] ∧
      dictGet i2 "title" = some t2 ∧ dictGet i2 "content" = some c2 := by
  obtain ⟨sitems, sfail⟩ := st
  dsimp only at hf
  subst hf
  have hpy1 : pyOr (some idv) g1 = idv := by simp [pyOr, hid]
  have hpy2 : pyOr (some idv) g2 = idv := by simp [pyOr, hid]
  by_cases hs : strTruthy sk = true
  · -- the table has a (truthy) sort key
    obtain ⟨skn, rfl⟩ : ∃ skn, sk = some skn := by
      cases sk with
      | none => simp [strTruthy] at hs
      | some s => exact ⟨s, rfl⟩
    have hne : skn ≠ "" := by simpa [strTruthy] using hs
    obtain ⟨e1, e2, e3, e4, e5, hut⟩ := hsk skn rfl hne
    obtain ⟨u, rfl⟩ : ∃ u, user_id = some u := by
      cases user_id with
      | none => simp [strTruthy] at hut
      | some v => exact ⟨v, rfl⟩
    have gkn : ∀ t c ts0, dictGet (dictInsert (buildItem ⟨kn, some skn⟩ idv t c ts0) skn u)
        kn = some idv := by
      intro t c ts0
      simp +decide [buildItem, dictGet_insert_self, dictGet_insert_ne,
        e5, Ne.symm h1, Ne.symm h2, Ne.symm h3, Ne.symm h4]
    have gsk : ∀ t c ts0, dictGet (dictInsert (buildItem ⟨kn, some skn⟩ idv t c ts0) skn u)
        skn = some u := fun t c ts0 => dictGet_insert_self _ _ _
    have gkey : ∀ t c ts0, keyOfItem ⟨kn, some skn⟩
        (dictInsert (buildItem ⟨kn, some skn⟩ idv t c ts0) skn u) = (some idv, some u) := by
      intro t c ts0
      simp [keyOfItem, hs, gkn, gsk]
    have gt2 : dictGet (dictInsert (buildItem ⟨kn, some skn⟩ idv t2 c2 ts2) skn u) "title" =
        some t2 := by
      simp +decide [buildItem, dictGet_insert_self, dictGet_insert_ne, e1]
    have gc2 : dictGet (dictInsert (buildItem ⟨kn, some skn⟩ idv t2 c2 ts2) skn u) "content" =
        some c2 := by
      simp +decide [buildItem, dictGet_insert_self, dictGet_insert_ne, e2]
    have km2 : keyMatch (DynamoNotes.mkKey ⟨kn, some skn⟩ idv (some u))
        (dictInsert (buildItem ⟨kn, some skn⟩ idv t2 c2 ts2) skn u) = true := by
      simp [DynamoNotes.mkKey, hs, dictInsert, Ne.symm e5, keyMatch, gkn, gsk]
    have hc1 : DynamoNotes.create ⟨kn, some skn⟩ g1 ts1 t1 c1 (some u) (some idv)
        ⟨sitems, false⟩ =
        .ok (dictInsert (buildItem ⟨kn, some skn⟩ idv t1 c1 ts1) skn u,
          ⟨dictInsert (buildItem ⟨kn, some skn⟩ idv t1 c1 ts1) skn u ::
            sitems.filter (fun j => !(decide (keyOfItem ⟨kn, some skn⟩ j =
              keyOfItem ⟨kn, some skn⟩
                (dictInsert (buildItem ⟨kn, some skn⟩ idv t1 c1 ts1) skn u)))),
           false⟩) := by
      simp [DynamoNotes.create, hs, hut, put_item, hpy1]
    have hc2 : DynamoNotes.create ⟨kn, some skn⟩ g2 ts2 t2 c2 (some u) (some idv)
        ⟨dictInsert (buildItem ⟨kn, some skn⟩ idv t1 c1 ts1) skn u ::
          sitems.filter (fun j => !(decide (keyOfItem ⟨kn, some skn⟩ j =
            keyOfItem ⟨kn, some skn⟩
              (dictInsert (buildItem ⟨kn, some skn⟩ idv t1 c1 ts1) skn u)))),
         false⟩ =
        .ok (dictInsert (buildItem ⟨kn, some skn⟩ idv t2 c2 ts2) skn u,
          ⟨dictInsert (buildItem ⟨kn, some skn⟩ idv t2 c2 ts2) skn u ::
            sitems.filter (fun j => !(decide (keyOfItem ⟨kn, some skn⟩ j =
              keyOfItem ⟨kn, some skn⟩
                (dictInsert (buildItem ⟨kn, some skn⟩ idv t1 c1 ts1) skn u)))),
           false⟩) := by
      have h12 : keyOfItem ⟨kn, some skn⟩
          (dictInsert (buildItem ⟨kn, some skn⟩ idv t1 c1 ts1) skn u) =
          keyOfItem ⟨kn, some skn⟩
            (dictInsert (buildItem ⟨kn, some skn⟩ idv t2 c2 ts2) skn u) :=
        (gkey t1 c1 ts1).trans (gkey t2 c2 ts2).symm
      simp only [DynamoNotes.create, hs, hut, put_item, hpy2, if_true, Bool.false_eq_true,
        if_false, Option.getD_some]
      rw [filter_cons_self_key _ _ _ _ h12]
    have hc3 : DynamoNotes.list ⟨kn, some skn⟩ (some u)
        ⟨dictInsert (buildItem ⟨kn, some skn⟩ idv t2 c2 ts2) skn u ::
          sitems.filter (fun j => !(decide (keyOfItem ⟨kn, some skn⟩ j =
            keyOfItem ⟨kn, some skn⟩
              (dictInsert (buildItem ⟨kn, some skn⟩ idv t1 c1 ts1) skn u)))),
         false⟩ =
        .ok (dictInsert (buildItem ⟨kn, some skn⟩ idv t2 c2 ts2) skn u ::
          (sitems.filter (fun j => !(decide (keyOfItem ⟨kn, some skn⟩ j =
            keyOfItem ⟨kn, some skn⟩
              (dictInsert (buildItem ⟨kn, some skn⟩ idv t1 c1 ts1) skn u))))).filter
            (fun it => decide (dictGet it skn = some u))) := by
      simp [DynamoNotes.list, hs, hut, scanTable, List.filter_cons, gsk]
    have hrest : ∀ j ∈ (sitems.filter (fun j => !(decide (keyOfItem ⟨kn, some skn⟩ j =
          keyOfItem ⟨kn, some skn⟩
            (dictInsert (buildItem ⟨kn, some skn⟩ idv t1 c1 ts1) skn u))))).filter
          (fun it => decide (dictGet it skn = some u)),
        keyMatch (DynamoNotes.mkKey ⟨kn, some skn⟩ idv (some u)) j = false := by
      intro j hj
      have hjF1 := (List.mem_filter.mp hj).1
      have hne2 : ¬ keyOfItem ⟨kn, some skn⟩ j = (some idv, some u) := by
        have h5 := List.of_mem_filter hjF1
        simp only [gkey] at h5
        simpa using h5
      cases hb : keyMatch (DynamoNotes.mkKey ⟨kn, some skn⟩ idv (some u)) j with
      | false => rfl
      | true => exact absurd (keyMatch_mkKey_eq kn skn idv u (Ne.symm e5) j hs hb) hne2
    have hc4 : (dictInsert (buildItem ⟨kn, some skn⟩ idv t2 c2 ts2) skn u ::
          (sitems.filter (fun j => !(decide (keyOfItem ⟨kn, some skn⟩ j =
            keyOfItem ⟨kn, some skn⟩
              (dictInsert (buildItem ⟨kn, some skn⟩ idv t1 c1 ts1) skn u))))).filter
            (fun it => decide (dictGet it skn = some u))).filter
          (fun it => keyMatch (DynamoNotes.mkKey ⟨kn, some skn⟩ idv (some u)) it) =
        [dictInsert (buildItem ⟨kn, some skn⟩ idv t2 c2 ts2) skn u] := by
      rw [List.filter_cons]
      simp only [km2, if_true]
      rw [List.filter_eq_nil_iff.mpr (fun j hj => by simp [hrest j hj])]
    exact ⟨_, _, _, _, _, hc1, hc2, hc3, hc4, gt2, gc2⟩
  · -- no (truthy) sort key
    have hs' : strTruthy sk = false := by simpa using hs
    have gkn : ∀ t c ts0, dictGet (buildItem ⟨kn, sk⟩ idv t c ts0) kn = some idv := by
      intro t c ts0
      simp +decide [buildItem, dictGet_insert_self, dictGet_insert_ne,
        Ne.symm h1, Ne.symm h2, Ne.symm h3, Ne.symm h4]
    have gkey : ∀ t c ts0, keyOfItem ⟨kn, sk⟩ (buildItem ⟨kn, sk⟩ idv t c ts0) =
        (some idv, none) := by
      intro t c ts0
      simp [keyOfItem, hs', gkn]
    have gt2 : dictGet (buildItem ⟨kn, sk⟩ idv t2 c2 ts2) "title" = some t2 := by
      simp +decide [buildItem, dictGet_insert_self, dictGet_insert_ne]
    have gc2 : dictGet (buildItem ⟨kn, sk⟩ idv t2 c2 ts2) "content" = some c2 := by
      simp +decide [buildItem, dictGet_insert_self, dictGet_insert_ne]
    have km2 : keyMatch (DynamoNotes.mkKey ⟨kn, sk⟩ idv user_id)
        (buildItem ⟨kn, sk⟩ idv t2 c2 ts2) = true := by
      simp [DynamoNotes.mkKey, hs', dictInsert, keyMatch, gkn]
    have hc1 : DynamoNotes.create ⟨kn, sk⟩ g1 ts1 t1 c1 user_id (some idv)
        ⟨sitems, false⟩ =
        .ok (buildItem ⟨kn, sk⟩ idv t1 c1 ts1,
          ⟨buildItem ⟨kn, sk⟩ idv t1 c1 ts1 ::
            sitems.filter (fun j => !(decide (keyOfItem ⟨kn, sk⟩ j =
              keyOfItem ⟨kn, sk⟩ (buildItem ⟨kn, sk⟩ idv t1 c1 ts1)))),
           false⟩) := by
      simp [DynamoNotes.create, hs', put_item, hpy1]
    have hc2 : DynamoNotes.create ⟨kn, sk⟩ g2 ts2 t2 c2 user_id (some idv)
        ⟨buildItem ⟨kn, sk⟩ idv t1 c1 ts1 ::
          sitems.filter (fun j => !(decide (keyOfItem ⟨kn, sk⟩ j =
            keyOfItem ⟨kn, sk⟩ (buildItem ⟨kn, sk⟩ idv t1 c1 ts1)))),
         false⟩ =
        .ok (buildItem ⟨kn, sk⟩ idv t2 c2 ts2,
          ⟨buildItem ⟨kn, sk⟩ idv t2 c2 ts2 ::
            sitems.filter (fun j => !(decide (keyOfItem ⟨kn, sk⟩ j =
              keyOfItem ⟨kn, sk⟩ (buildItem ⟨kn, sk⟩ idv t1 c1 ts1)))),
           false⟩) := by
      have h12 : keyOfItem ⟨kn, sk⟩ (buildItem ⟨kn, sk⟩ idv t1 c1 ts1) =
          keyOfItem ⟨kn, sk⟩ (buildItem ⟨kn, sk⟩ idv t2 c2 ts2) :=
        (gkey t1 c1 ts1).trans (gkey t2 c2 ts2).symm
      simp only [DynamoNotes.create, hs', put_item, hpy2, if_true, Bool.false_eq_true,
        if_false, Option.getD_some]
      rw [filter_cons_self_key _ _ _ _ h12]
    have hc3 : DynamoNotes.list ⟨kn, sk⟩ user_id
        ⟨buildItem ⟨kn, sk⟩ idv t2 c2 ts2 ::
          sitems.filter (fun j => !(decide (keyOfItem ⟨kn, sk⟩ j =
            keyOfItem ⟨kn, sk⟩ (buildItem ⟨kn, sk⟩ idv t1 c1 ts1)))),
         false⟩ =
        .ok (buildItem ⟨kn, sk⟩ idv t2 c2 ts2 ::
          sitems.filter (fun j => !(decide (keyOfItem ⟨kn, sk⟩ j =
            keyOfItem ⟨kn, sk⟩ (buildItem ⟨kn, sk⟩ idv t1 c1 ts1))))) := by
      simp [DynamoNotes.list, hs', scanTable]
    have hrest : ∀ j ∈ sitems.filter (fun j => !(decide (keyOfItem ⟨kn, sk⟩ j =
          keyOfItem ⟨kn, sk⟩ (buildItem ⟨kn, sk⟩ idv t1 c1 ts1)))),
        keyMatch (DynamoNotes.mkKey ⟨kn, sk⟩ idv user_id) j = false := by
      intro j hj
      have hne2 : ¬ keyOfItem ⟨kn, sk⟩ j = (some idv, none) := by
        have h5 := List.of_mem_filter hj
        simp only [gkey] at h5
        simpa using h5
      cases hb : keyMatch (DynamoNotes.mkKey ⟨kn, sk⟩ idv user_id) j with
      | false => rfl
      | true => exact absurd (keyMatch_mkKey_eq_nosort kn sk idv user_id j hs' hb) hne2
    have hc4 : (buildItem ⟨kn, sk⟩ idv t2 c2 ts2 ::
          sitems.filter (fun j => !(decide (keyOfItem ⟨kn, sk⟩ j =
            keyOfItem ⟨kn, sk⟩ (buildItem ⟨kn, sk⟩ idv t1 c1 ts1))))).filter
          (fun it => keyMatch (DynamoNotes.mkKey ⟨kn, sk⟩ idv user_id) it) =
        [buildItem ⟨kn, sk⟩ idv t2 c2 ts2] := by
      rw [List.filter_cons]
      simp only [km2, if_true]
      rw [List.filter_eq_nil_iff.mpr (fun j hj => by simp [hrest j hj])]
    exact ⟨_, _, _, _, _, hc1, hc2, hc3, hc4, gt2, gc2⟩

/-- Witness for C6 at concrete inputs. -/
theorem create_overwrites_no_duplicate_witness :
    exceptOk (DynamoNotes.create ⟨"id", some "user"⟩ "g1" "ts1" "T1" "C1" (some "bob")
      (some "n1") ⟨[], false⟩) = true := by
  obtain ⟨i1, st1, i2, st2, items, hc1, -⟩ :=
    create_overwrites_no_duplicate "id" (some "user") "g1" "g2" "ts1" "ts2" "T1" "C1"
      "T2" "C2" "n1" (some "bob") ⟨[], false⟩ rfl (by decide)
      (by decide) (by decide) (by decide) (by decide)
      (fun skn h hne => by
        injection h with h9
        subst h9
        exact ⟨by decide, by decide, by decide, by decide, by decide, by decide⟩)
  simp [hc1, exceptOk]
